import Mathlib

/-
Verification of the FEAST_PtE survey-simulation core.

Shallow embedding of:
  - MyCodetoRun/bridger_survey_realistic.py   (pod_bridger, sample_wind_from_tmy,
    simulate_survey, module constants)
  - MyCodetoRun/bridger_spatial_survey.py     (pod_bridger, sample_wind_from_tmy,
    cluster_wells_dbscan, simulate_quarterly_survey, main's schedule arithmetic)
  - MyCodetoRun/survey_strategy_summary.py    (calculate_strategy)

Python floats are modelled by real numbers where transcendental functions
(np.exp, np.log) are involved, and by rationals where the computation is
plain arithmetic, so that concrete instances can be decided by evaluation.
Randomness (np.random.uniform, np.random.choice, np.random.binomial) is
modelled by explicit oracle arguments: a uniform draw, a choice index, and
per-site Boolean detection flags.
-/

/-! ### Module constants (bridger_survey_realistic.py lines 20-28,
bridger_spatial_survey.py lines 20-27; POD_90_KGPH in the spatial file equals
POD_90_GPS here) -/

noncomputable def POD_90_GPS : ℝ := 127 / 100

noncomputable def LOGISTIC_STEEPNESS : ℝ := 2

noncomputable def BASELINE_WIND_MS : ℝ := 7 / 2

noncomputable def WIND_EXPONENT : ℝ := -(3 / 10)

def MIN_WIND_MS : ℚ := 1

def MAX_WIND_MS : ℚ := 6

def SURVEY_COVERAGE_PCT : ℚ := 20 / 100

def PERMIAN_QUARTERLY_COVERAGE : ℚ := 20 / 100

/-! ### Detection model: pod_bridger
(bridger_survey_realistic.py lines 31-59 and, identically up to constant
names, bridger_spatial_survey.py lines 100-113).

The Python code computes
  wind_factor        = np.exp(WIND_EXPONENT * (wind_speed_ms - BASELINE_WIND_MS))
  adjusted_threshold = POD_90_GPS * wind_factor
  if emission_rate_kgph <= 0: return 0.0
  exponent = LOGISTIC_STEEPNESS * (np.log(e) - np.log(adjusted_threshold))
  pod = 1.0 / (1.0 + np.exp(-exponent))
  return np.clip(pod, 0.0, 1.0)
np.clip(x, 0, 1) is min (max x 0) 1. -/

noncomputable def pod_bridger (emission_rate_kgph wind_speed_ms : ℝ) : ℝ :=
  if emission_rate_kgph ≤ 0 then 0
  else
    min (max (1 / (1 + Real.exp (-(LOGISTIC_STEEPNESS *
      (Real.log emission_rate_kgph -
        Real.log (POD_90_GPS *
          Real.exp (WIND_EXPONENT * (wind_speed_ms - BASELINE_WIND_MS))))))))
      0) 1

/-- The logistic sigmoid used by pod_bridger on the positive branch. -/
noncomputable def logistic (t : ℝ) : ℝ := 1 / (1 + Real.exp (-t))

lemma logistic_pos (t : ℝ) : 0 < logistic t := by
  unfold logistic; positivity

lemma logistic_lt_one (t : ℝ) : logistic t < 1 := by
  unfold logistic
  rw [div_lt_one (by positivity)]
  have h := Real.exp_pos (-t)
  linarith

lemma logistic_lt_logistic {s t : ℝ} (h : s < t) : logistic s < logistic t := by
  unfold logistic
  have h2 : (0 : ℝ) < 1 + Real.exp (-s) := by positivity
  have h3 : (0 : ℝ) < 1 + Real.exp (-t) := by positivity
  rw [div_lt_div_iff₀ h2 h3]
  have h4 : Real.exp (-t) < Real.exp (-s) := Real.exp_lt_exp.mpr (by linarith)
  linarith

/-- On the positive branch the clamp never binds: pod_bridger is the logistic
of the wind-adjusted log-space margin. -/
lemma pod_bridger_of_pos {e : ℝ} (w : ℝ) (he : 0 < e) :
    pod_bridger e w = logistic (LOGISTIC_STEEPNESS *
      (Real.log e -
        Real.log (POD_90_GPS * Real.exp (WIND_EXPONENT * (w - BASELINE_WIND_MS))))) := by
  unfold pod_bridger
  rw [if_neg (not_le.mpr he)]
  have h0 := logistic_pos (LOGISTIC_STEEPNESS *
    (Real.log e -
      Real.log (POD_90_GPS * Real.exp (WIND_EXPONENT * (w - BASELINE_WIND_MS)))))
  have h1 := logistic_lt_one (LOGISTIC_STEEPNESS *
    (Real.log e -
      Real.log (POD_90_GPS * Real.exp (WIND_EXPONENT * (w - BASELINE_WIND_MS)))))
  unfold logistic at h0 h1 ⊢
  rw [max_eq_left h0.le, min_eq_left h1.le]

lemma log_adjusted_threshold (w : ℝ) :
    Real.log (POD_90_GPS * Real.exp (WIND_EXPONENT * (w - BASELINE_WIND_MS)))
      = Real.log POD_90_GPS + WIND_EXPONENT * (w - BASELINE_WIND_MS) := by
  rw [Real.log_mul (by norm_num [POD_90_GPS]) (Real.exp_ne_zero _), Real.log_exp]

/-- At fixed positive emission rate, pod_bridger strictly increases with wind
speed: the negative WIND_EXPONENT lowers the adjusted threshold as wind rises,
which raises the logistic margin. -/
lemma pod_wind_increasing {e w1 w2 : ℝ} (he : 0 < e) (hw : w1 < w2) :
    pod_bridger e w1 < pod_bridger e w2 := by
  rw [pod_bridger_of_pos w1 he, pod_bridger_of_pos w2 he]
  apply logistic_lt_logistic
  rw [log_adjusted_threshold, log_adjusted_threshold]
  simp only [LOGISTIC_STEEPNESS, WIND_EXPONENT]
  nlinarith [hw]

/-- At fixed wind speed, pod_bridger strictly increases with the emission
rate on positive rates. -/
lemma pod_rate_increasing {e1 e2 : ℝ} (w : ℝ) (h1 : 0 < e1) (h12 : e1 < e2) :
    pod_bridger e1 w < pod_bridger e2 w := by
  rw [pod_bridger_of_pos w h1, pod_bridger_of_pos w (h1.trans h12)]
  apply logistic_lt_logistic
  have hlog := Real.log_lt_log h1 h12
  simp only [LOGISTIC_STEEPNESS]
  nlinarith [hlog]

/-- C3: pod_bridger always returns a value in the closed interval [0, 1], and
returns exactly 0 whenever the emission rate is ≤ 0 (a defined case, not an
error: the function branches on `emission_rate_kgph <= 0` before taking logs). -/
theorem pod_bridger_in_unit_interval (e w : ℝ) :
    0 ≤ pod_bridger e w ∧ pod_bridger e w ≤ 1 ∧ (e ≤ 0 → pod_bridger e w = 0) := by
  unfold pod_bridger
  by_cases h : e ≤ 0
  · simp [h]
  · rw [if_neg h]
    exact ⟨le_min (le_max_right _ 0) zero_le_one, min_le_right _ 1,
      fun hc => absurd hc h⟩

/-- C3 witness: concrete evaluation at a non-positive rate and at a positive
rate, obtained by applying pod_bridger_in_unit_interval. -/
theorem pod_bridger_in_unit_interval_witness :
    pod_bridger (-1) 3 = 0 ∧ 0 ≤ pod_bridger 2 3 ∧ pod_bridger 2 3 ≤ 1 :=
  ⟨(pod_bridger_in_unit_interval (-1) 3).2.2 (by norm_num),
    (pod_bridger_in_unit_interval 2 3).1,
    (pod_bridger_in_unit_interval 2 3).2.1⟩

/-- C8: with the default constants, pod_bridger(1.27, 3.5) is exactly the
logistic midpoint 1/2 — the wind factor is exp 0 = 1 at baseline wind, so the
adjusted threshold equals the emission rate and the log-space margin is 0.
This is 0.5, not the 90% that the calibration label suggests. -/
theorem pod_bridger_midpoint : pod_bridger (127 / 100) (7 / 2) = 1 / 2 := by
  rw [pod_bridger_of_pos _ (by norm_num)]
  rw [log_adjusted_threshold]
  have harg : LOGISTIC_STEEPNESS *
      (Real.log (127 / 100) -
        (Real.log POD_90_GPS + WIND_EXPONENT * ((7 : ℝ) / 2 - BASELINE_WIND_MS))) = 0 := by
    simp only [POD_90_GPS, BASELINE_WIND_MS, WIND_EXPONENT, LOGISTIC_STEEPNESS]
    ring_nf
  rw [harg]
  unfold logistic
  rw [neg_zero, Real.exp_zero]
  norm_num

/-- C1 (amended): for every fixed positive emission rate e and wind speeds
w1 < w2, pod_bridger(e, w1) < pod_bridger(e, w2): under the default constants
(basePod90Threshold = 1.27, windExponent = -0.3, baselineWindMs = 3.5,
steepness = 2.0) the detection probability is strictly INCREASING in wind
speed, because the negative wind exponent lowers the adjusted threshold as
wind rises. The claimed non-increasing direction fails. -/
theorem pod_bridger_wind_mono (e w1 w2 : ℝ) (he : 0 < e) (hw : w1 < w2) :
    pod_bridger e w1 < pod_bridger e w2 :=
  pod_wind_increasing he hw

/-- C1 witness: strict increase in wind at the concrete point e = 1,
w1 = 2 < w2 = 3, obtained by applying pod_bridger_wind_mono. -/
theorem pod_bridger_wind_mono_witness : pod_bridger 1 2 < pod_bridger 1 3 :=
  pod_bridger_wind_mono 1 2 3 (by norm_num) (by norm_num)

/-- C1 counterexample: the claimed inequality
pod_bridger(e, w1) ≥ pod_bridger(e, w2) for w1 < w2 fails at the concrete
input e = 1.27, w1 = 3.5, w2 = 6: the detection probability at 6 m/s is
strictly larger than at 3.5 m/s. -/
theorem pod_bridger_wind_counterexample :
    ¬ (pod_bridger (127 / 100) (7 / 2) ≥ pod_bridger (127 / 100) 6) :=
  not_le.mpr (pod_wind_increasing (by norm_num) (by norm_num))

/-- C7: for every fixed wind speed w and emission rates 0 < e1 < e2,
pod_bridger(e1, w) ≤ pod_bridger(e2, w), and in fact strictly < everywhere on
positive rates (the clamp to [0,1] never binds on the open logistic range). -/
theorem pod_bridger_rate_mono (e1 e2 w : ℝ) (h1 : 0 < e1) (h12 : e1 < e2) :
    pod_bridger e1 w ≤ pod_bridger e2 w ∧ pod_bridger e1 w < pod_bridger e2 w :=
  ⟨(pod_rate_increasing w h1 h12).le, pod_rate_increasing w h1 h12⟩

/-- C7 witness: monotonicity in the emission rate at the concrete point
e1 = 1 < e2 = 2, w = 3, obtained by applying pod_bridger_rate_mono. -/
theorem pod_bridger_rate_mono_witness :
    pod_bridger 1 3 ≤ pod_bridger 2 3 ∧ pod_bridger 1 3 < pod_bridger 2 3 :=
  pod_bridger_rate_mono 1 2 3 (by norm_num) (by norm_num)

/-! ### Wind sampler: sample_wind_from_tmy
(bridger_survey_realistic.py lines 62-90, bridger_spatial_survey.py lines
116-136; both return the same values, differing only in whether a warning is
printed before the fallback).

The external TMY series can be in one of four states, matching the code's
branches: file missing (`Path(tmy_path).exists()` false), readable but with
neither a `WindSpeed` nor a `wind_speed` column, unreadable (the bare
`except` branch), or readable with a wind column whose values (post-dropna)
are `data`. `np.random.uniform(MIN_WIND_MS, MAX_WIND_MS)` is modelled by the
oracle `u`, and `np.random.choice(flyable)` by the index oracle `idx` taken
modulo the filtered length. The code returns a bare float in every branch —
there is no status field in the return value. -/

inductive WindSource where
  | missing : WindSource
  | wrongColumns : WindSource
  | unreadable : WindSource
  | withWind : List ℚ → WindSource

/-- Filter to the flyable range, line 82 of bridger_survey_realistic.py:
`wind_data[(wind_data >= MIN_WIND_MS) & (wind_data <= MAX_WIND_MS)]`. -/
def flyable_filter (data : List ℚ) : List ℚ :=
  data.filter (fun w => decide (MIN_WIND_MS ≤ w) && decide (w ≤ MAX_WIND_MS))

def sample_wind_from_tmy (src : WindSource) (u : ℚ) (idx : ℕ) : ℚ :=
  match src with
  | WindSource.missing => u
  | WindSource.wrongColumns => u
  | WindSource.unreadable => u
  | WindSource.withWind data =>
      if (flyable_filter data).isEmpty then u
      else (flyable_filter data).getD (idx % (flyable_filter data).length) 0

lemma getD_mem_of_lt : ∀ (l : List ℚ) (k : ℕ), k < l.length → l.getD k 0 ∈ l := by
  intro l
  induction l with
  | nil => intro k hk; simp at hk
  | cons a t ih =>
      intro k hk
      cases k with
      | zero => simp [List.getD]
      | succ n =>
          have hn : n < t.length := by simpa using hk
          simpa [List.getD] using Or.inr (ih n hn)

lemma flyable_filter_bounds {data : List ℚ} {w : ℚ} (hw : w ∈ flyable_filter data) :
    MIN_WIND_MS ≤ w ∧ w ≤ MAX_WIND_MS := by
  have h := List.mem_filter.mp hw
  have h2 := h.2
  simp only [Bool.and_eq_true, decide_eq_true_eq] at h2
  exact h2

/-- C4 (amended): sample_wind_from_tmy never raises — every source state
returns a wind speed, degraded states (missing file, wrong columns,
unreadable file, empty flyable set) return exactly the uniform draw from
[MIN_WIND_MS, MAX_WIND_MS], and every returned speed lies in that envelope —
but the degradation is NOT signalled via the result: the function returns a
bare number in every branch (the realistic variant only prints a warning;
the spatial variant's bare except is entirely silent). -/
theorem sample_wind_never_raises (src : WindSource) (u : ℚ) (idx : ℕ)
    (h1 : MIN_WIND_MS ≤ u) (h2 : u ≤ MAX_WIND_MS) :
    (MIN_WIND_MS ≤ sample_wind_from_tmy src u idx
      ∧ sample_wind_from_tmy src u idx ≤ MAX_WIND_MS)
    ∧ sample_wind_from_tmy WindSource.missing u idx = u
    ∧ sample_wind_from_tmy WindSource.wrongColumns u idx = u
    ∧ sample_wind_from_tmy WindSource.unreadable u idx = u
    ∧ (∀ data, flyable_filter data = [] →
        sample_wind_from_tmy (WindSource.withWind data) u idx = u) := by
  refine ⟨?_, rfl, rfl, rfl, fun data hdata => ?_⟩
  · cases src with
    | missing => exact ⟨h1, h2⟩
    | wrongColumns => exact ⟨h1, h2⟩
    | unreadable => exact ⟨h1, h2⟩
    | withWind data =>
        simp only [sample_wind_from_tmy]
        by_cases hemp : (flyable_filter data).isEmpty
        · rw [if_pos hemp]; exact ⟨h1, h2⟩
        · rw [if_neg hemp]
          have hlen : 0 < (flyable_filter data).length := by
            cases hd : flyable_filter data with
            | nil => rw [hd] at hemp; simp at hemp
            | cons a t => simp [hd]
          exact flyable_filter_bounds
            (getD_mem_of_lt _ _ (Nat.mod_lt _ hlen))
  · simp [sample_wind_from_tmy, hdata]

/-- C4 witness: the envelope bound at the concrete healthy source [2, 7]
(flyable subset [2]) with uniform oracle 3, obtained by applying
sample_wind_never_raises. -/
theorem sample_wind_never_raises_witness :
    MIN_WIND_MS ≤ sample_wind_from_tmy (WindSource.withWind [2, 7]) 3 0
      ∧ sample_wind_from_tmy (WindSource.withWind [2, 7]) 3 0 ≤ MAX_WIND_MS :=
  (sample_wind_never_raises (WindSource.withWind [2, 7]) 3 0
    (by norm_num [MIN_WIND_MS]) (by norm_num [MAX_WIND_MS])).1

/-- C4 counterexample: the claim that the degradation is signalled to the
caller via a status flag on the result is false — the return value is a bare
wind speed, and at the concrete input below a degraded call (TMY file
missing, uniform draw 3) is indistinguishable from a healthy call (TMY data
[3], choice index 0): both return exactly 3. No observable flag exists. -/
theorem sample_wind_no_status_flag :
    sample_wind_from_tmy WindSource.missing 3 0
      = sample_wind_from_tmy (WindSource.withWind [3]) 3 0 := by decide

/-! ### Strategy aggregator: calculate_strategy
(survey_strategy_summary.py lines 14-44). Pure rational arithmetic; the
Python float literals 55389.2 and 230.2 are the rationals 276946/5 and
1151/5. -/

structure StrategyResult where
  strategy : String
  annual_survey_pct : ℚ
  years : ℚ
  days_per_year : ℚ
  annual_detection_kgph : ℚ
  annual_mitigation_pct : ℚ
  cumulative_detection_5yr_kgph : ℚ
  cumulative_mitigation_5yr_pct : ℚ

def calculate_strategy (strategy_name : String)
    (annual_survey_pct years mean_detection_per_survey_kgph total_portfolio_kgph : ℚ) :
    StrategyResult :=
  { strategy := strategy_name
    annual_survey_pct := annual_survey_pct
    years := years
    days_per_year := annual_survey_pct / 100 * 108
    annual_detection_kgph :=
      annual_survey_pct / 100 * mean_detection_per_survey_kgph * (total_portfolio_kgph / 100)
    annual_mitigation_pct :=
      annual_survey_pct / 100 * mean_detection_per_survey_kgph * (total_portfolio_kgph / 100)
        / total_portfolio_kgph * 100
    cumulative_detection_5yr_kgph :=
      annual_survey_pct / 100 * mean_detection_per_survey_kgph * (total_portfolio_kgph / 100)
        * years
    cumulative_mitigation_5yr_pct :=
      annual_survey_pct / 100 * mean_detection_per_survey_kgph * (total_portfolio_kgph / 100)
        * years / total_portfolio_kgph * 100 }

/-- C2: evaluating calculate_strategy at the claimed scenario (20% annual
coverage, 5 years, yield 230 kg/h per 1% of portfolio, portfolio total
55,389.2 kg/h) gives annual detection 3184879/125 = 25,479.032 kg/h — more
than 25,000, not ≈ 4,604 — and a 5-year cumulative mitigation of exactly
230%, not ≈ 41.6%: the coded formula multiplies the per-1% yield by
total/100 a second time, contradicting the code's own reference comment
"One 20% survey produces ~4,604 kg/h detection". -/
theorem calculate_strategy_standard_values :
    (calculate_strategy "Standard (20% annual)" 20 5 230 (276946 / 5)).annual_detection_kgph
        = 3184879 / 125
    ∧ (calculate_strategy "Standard (20% annual)" 20 5 230
        (276946 / 5)).cumulative_mitigation_5yr_pct = 230
    ∧ 25000 < (calculate_strategy "Standard (20% annual)" 20 5 230
        (276946 / 5)).annual_detection_kgph := by
  refine ⟨?_, ?_, ?_⟩ <;> norm_num [calculate_strategy]

/-! ### Survey simulators
(bridger_survey_realistic.py lines 93-134: simulate_survey;
bridger_spatial_survey.py lines 139-183: simulate_quarterly_survey).

The random well selection (np.random.choice over indices) is modelled by
passing the selected emission rates directly; the per-site Bernoulli draws
(np.random.binomial(1, pod)) are modelled by Boolean flag oracles zipped
against the sites. Emission sums follow the pandas expressions:
emissions_detected = Σ rate·detected, wells_detected = Σ detected.

avg_pod in simulate_survey is `survey_wells['pod'].mean()`: the pandas mean
of an EMPTY series is NaN, which ℝ cannot represent, so the field is an
`Option ℝ` with `none` standing for that NaN (and `some` for the finite
mean sum/length otherwise). simulate_quarterly_survey instead guards with
`np.mean(pod_list) if pod_list else 0.0`, so its avg_pod is a plain ℝ. -/

def detectedEmissions (rates : List ℝ) (flags : List Bool) : ℝ :=
  ((rates.zip flags).map (fun p => if p.2 then p.1 else 0)).sum

def detectedCount (rates : List ℝ) (flags : List Bool) : ℕ :=
  ((rates.zip flags).filter (fun p => p.2)).length

structure SurveyEventResult where
  wind_speed_ms : ℝ
  emissions_sampled : ℝ
  emissions_detected : ℝ
  wells_sampled : ℕ
  wells_detected : ℕ
  avg_pod : Option ℝ

noncomputable def simulate_survey (selected : List ℝ) (wind : ℝ) (flags : List Bool) :
    SurveyEventResult :=
  { wind_speed_ms := wind
    emissions_sampled := selected.sum
    emissions_detected := detectedEmissions selected flags
    wells_sampled := selected.length
    wells_detected := detectedCount selected flags
    avg_pod :=
      if selected.isEmpty then none
      else some ((selected.map (fun e => pod_bridger e wind)).sum / (selected.length : ℝ)) }

structure QuarterlySurveyResult where
  clusters_surveyed : ℕ
  wells_surveyed : ℕ
  emissions_surveyed : ℝ
  wind_speed_ms : ℝ
  avg_pod : ℝ
  wells_detected : ℕ
  emissions_detected : ℝ

noncomputable def simulate_quarterly_survey (clusters : List (List ℝ)) (wind : ℝ)
    (cflags : List (List Bool)) : QuarterlySurveyResult :=
  { clusters_surveyed := clusters.length
    wells_surveyed := (clusters.map List.length).sum
    emissions_surveyed := (clusters.map List.sum).sum
    wind_speed_ms := wind
    avg_pod :=
      if ((clusters.map (fun cl => cl.map (fun e => pod_bridger e wind))).flatten).isEmpty
      then 0
      else ((clusters.map (fun cl => cl.map (fun e => pod_bridger e wind))).flatten).sum /
        ((((clusters.map (fun cl => cl.map (fun e => pod_bridger e wind))).flatten).length : ℝ))
    wells_detected := ((clusters.zip cflags).map (fun p => detectedCount p.1 p.2)).sum
    emissions_detected :=
      ((clusters.zip cflags).map (fun p => detectedEmissions p.1 p.2)).sum }

/-- C5: over an empty selection neither simulator fails — all counters and
emission sums are zero — but simulate_survey's avg_pod is the pandas mean of
an empty series, i.e. NaN (modelled as `none`), while
simulate_quarterly_survey's guard (`if pod_list else 0.0`) yields the finite
sentinel 0. The finiteness part of the claim thus fails for simulate_survey
and holds for simulate_quarterly_survey. -/
theorem empty_selection_zero_filled (w : ℝ) :
    (simulate_survey [] w []).emissions_sampled = 0
    ∧ (simulate_survey [] w []).emissions_detected = 0
    ∧ (simulate_survey [] w []).wells_sampled = 0
    ∧ (simulate_survey [] w []).wells_detected = 0
    ∧ (simulate_survey [] w []).avg_pod = none
    ∧ (simulate_quarterly_survey [] w []).clusters_surveyed = 0
    ∧ (simulate_quarterly_survey [] w []).wells_surveyed = 0
    ∧ (simulate_quarterly_survey [] w []).emissions_surveyed = 0
    ∧ (simulate_quarterly_survey [] w []).wells_detected = 0
    ∧ (simulate_quarterly_survey [] w []).emissions_detected = 0
    ∧ (simulate_quarterly_survey [] w []).avg_pod = 0 := by
  simp [simulate_survey, simulate_quarterly_survey, detectedEmissions, detectedCount]

lemma detectedEmissions_cons (a : ℝ) (t : List ℝ) (b : Bool) (bs : List Bool) :
    detectedEmissions (a :: t) (b :: bs)
      = (if b then a else 0) + detectedEmissions t bs := by
  simp [detectedEmissions]

lemma detectedEmissions_le (rates : List ℝ) (flags : List Bool)
    (h : ∀ e ∈ rates, 0 ≤ e) : detectedEmissions rates flags ≤ rates.sum := by
  induction rates generalizing flags with
  | nil => simp [detectedEmissions]
  | cons a t ih =>
      cases flags with
      | nil =>
          have hsum : (0 : ℝ) ≤ (a :: t).sum :=
            List.sum_nonneg h
          simpa [detectedEmissions] using hsum
      | cons b bs =>
          have ha : 0 ≤ a := h a (List.mem_cons_self a t)
          have ht : ∀ e ∈ t, 0 ≤ e := fun e he => h e (List.mem_cons_of_mem a he)
          rw [detectedEmissions_cons, List.sum_cons]
          have hif : (if b then a else 0) ≤ a := by
            cases b <;> simp [ha]
          exact add_le_add hif (ih bs ht)

lemma detectedCount_le (rates : List ℝ) (flags : List Bool) :
    detectedCount rates flags ≤ rates.length := by
  calc detectedCount rates flags
      ≤ (rates.zip flags).length := List.length_filter_le _ _
    _ ≤ rates.length := by rw [List.length_zip]; exact min_le_left _ _

lemma quarterly_detectedEmissions_le (clusters : List (List ℝ)) (cflags : List (List Bool))
    (h : ∀ cl ∈ clusters, ∀ e ∈ cl, 0 ≤ e) :
    ((clusters.zip cflags).map (fun p => detectedEmissions p.1 p.2)).sum
      ≤ (clusters.map List.sum).sum := by
  induction clusters generalizing cflags with
  | nil => simp
  | cons c cs ih =>
      cases cflags with
      | nil =>
          have : (0 : ℝ) ≤ ((c :: cs).map List.sum).sum := by
            apply List.sum_nonneg
            intro x hx
            obtain ⟨cl, hcl, rfl⟩ := List.mem_map.mp hx
            exact List.sum_nonneg (h cl hcl)
          simpa using this
      | cons f fs =>
          have hc : ∀ e ∈ c, 0 ≤ e := h c (List.mem_cons_self c cs)
          have hcs : ∀ cl ∈ cs, ∀ e ∈ cl, 0 ≤ e :=
            fun cl hcl => h cl (List.mem_cons_of_mem c hcl)
          simp only [List.zip_cons_cons, List.map_cons, List.sum_cons]
          exact add_le_add (detectedEmissions_le c f hc) (ih fs hcs)

lemma quarterly_detectedCount_le (clusters : List (List ℝ)) (cflags : List (List Bool)) :
    ((clusters.zip cflags).map (fun p => detectedCount p.1 p.2)).sum
      ≤ (clusters.map List.length).sum := by
  induction clusters generalizing cflags with
  | nil => simp
  | cons c cs ih =>
      cases cflags with
      | nil => simp
      | cons f fs =>
          simp only [List.zip_cons_cons, List.map_cons, List.sum_cons]
          exact Nat.add_le_add (detectedCount_le c f) (ih fs)

/-- C9: in every survey event over sites with non-negative emission rates,
detected quantities never exceed sampled totals: for simulate_survey,
emissions_detected ≤ emissions_sampled and wells_detected ≤ wells_sampled,
and likewise for simulate_quarterly_survey with emissions_surveyed and
wells_surveyed, for every Bernoulli outcome. -/
theorem detected_le_sampled (selected : List ℝ) (flags : List Bool)
    (clusters : List (List ℝ)) (cflags : List (List Bool)) (w w2 : ℝ)
    (hsel : ∀ e ∈ selected, 0 ≤ e) (hcl : ∀ cl ∈ clusters, ∀ e ∈ cl, 0 ≤ e) :
    ((simulate_survey selected w flags).emissions_detected
        ≤ (simulate_survey selected w flags).emissions_sampled
      ∧ (simulate_survey selected w flags).wells_detected
        ≤ (simulate_survey selected w flags).wells_sampled)
    ∧ ((simulate_quarterly_survey clusters w2 cflags).emissions_detected
        ≤ (simulate_quarterly_survey clusters w2 cflags).emissions_surveyed
      ∧ (simulate_quarterly_survey clusters w2 cflags).wells_detected
        ≤ (simulate_quarterly_survey clusters w2 cflags).wells_surveyed) :=
  ⟨⟨detectedEmissions_le selected flags hsel, detectedCount_le selected flags⟩,
    ⟨quarterly_detectedEmissions_le clusters cflags hcl,
      quarterly_detectedCount_le clusters cflags⟩⟩

/-- C9 witness: the four inequalities at a concrete event — sites [2, 3] with
outcomes [true, false], clusters [[1], [2, 5]] with outcomes
[[true], [false, true]] — obtained by applying detected_le_sampled. -/
theorem detected_le_sampled_witness :
    ((simulate_survey [2, 3] 4 [true, false]).emissions_detected
        ≤ (simulate_survey [2, 3] 4 [true, false]).emissions_sampled
      ∧ (simulate_survey [2, 3] 4 [true, false]).wells_detected
        ≤ (simulate_survey [2, 3] 4 [true, false]).wells_sampled)
    ∧ ((simulate_quarterly_survey [[1], [2, 5]] 4 [[true], [false, true]]).emissions_detected
        ≤ (simulate_quarterly_survey [[1], [2, 5]] 4 [[true], [false, true]]).emissions_surveyed
      ∧ (simulate_quarterly_survey [[1], [2, 5]] 4 [[true], [false, true]]).wells_detected
        ≤ (simulate_quarterly_survey [[1], [2, 5]] 4 [[true], [false, true]]).wells_surveyed) :=
  detected_le_sampled [2, 3] [true, false] [[1], [2, 5]] [[true], [false, true]] 4 4
    (by intro e he; rcases List.mem_cons.mp he with h | h
        · subst h; norm_num
        · simp only [List.mem_singleton] at h; subst h; norm_num)
    (by intro cl hcl
        rcases List.mem_cons.mp hcl with h | h
        · subst h; intro e he; simp only [List.mem_singleton] at he; subst he; norm_num
        · simp only [List.mem_singleton] at h; subst h
          intro e he
          rcases List.mem_cons.mp he with h2 | h2
          · subst h2; norm_num
          · simp only [List.mem_singleton] at h2; subst h2; norm_num)

/-! ### Coverage truncation
(bridger_survey_realistic.py line 105: `n_survey = int(n_wells * coverage_pct)`;
bridger_spatial_survey.py line 242:
`quarterly_clusters = int(n_clusters * PERMIAN_QUARTERLY_COVERAGE)`, used as
the exact selection size of np.random.choice(..., replace=False) in both).

Python's int() truncates toward zero. -/

def python_int (x : ℚ) : ℤ := if x < 0 then -⌊-x⌋ else ⌊x⌋

def n_survey (n_wells : ℕ) (coverage_pct : ℚ) : ℤ :=
  python_int ((n_wells : ℚ) * coverage_pct)

def quarterly_clusters (n_clusters : ℕ) : ℤ :=
  python_int ((n_clusters : ℚ) * PERMIAN_QUARTERLY_COVERAGE)

/-- C10: for a portfolio of n wells and coverage fraction c ∈ (0, 1],
simulate_survey's selection size is exactly ⌊n·c⌋ (int() truncation equals
floor on the non-negative product), so zero wells are surveyed when n·c < 1;
the spatial planner likewise selects exactly ⌊n_clusters · 0.20⌋ clusters per
quarter; and whenever n·c is not an integer the realized count is strictly
below the nominal n·c. -/
theorem coverage_floor (n : ℕ) (c : ℚ) (h1 : 0 < c) (h2 : c ≤ 1) :
    n_survey n c = ⌊(n : ℚ) * c⌋
    ∧ ((n : ℚ) * c < 1 → n_survey n c = 0)
    ∧ (∀ m : ℕ, quarterly_clusters m = ⌊(m : ℚ) * (20 / 100)⌋)
    ∧ ((¬ ∃ k : ℤ, (n : ℚ) * c = (k : ℚ)) → ((n_survey n c : ℚ) < (n : ℚ) * c)) := by
  have hnn : 0 ≤ (n : ℚ) * c := mul_nonneg (Nat.cast_nonneg n) h1.le
  have heq : n_survey n c = ⌊(n : ℚ) * c⌋ := by
    unfold n_survey python_int
    rw [if_neg (not_lt.mpr hnn)]
  refine ⟨heq, fun hlt => ?_, fun m => ?_, fun hk => ?_⟩
  · rw [heq]
    exact Int.floor_eq_zero_iff.mpr ⟨hnn, hlt⟩
  · have hmn : 0 ≤ (m : ℚ) * (20 / 100) := by positivity
    unfold quarterly_clusters python_int PERMIAN_QUARTERLY_COVERAGE
    rw [if_neg (not_lt.mpr hmn)]
  · rw [heq]
    refine lt_of_le_of_ne (Int.floor_le _) (fun hfe => hk ⟨⌊(n : ℚ) * c⌋, hfe.symm⟩)

/-- C10 witness: n = 3 wells at coverage 1/2 — the selection size is
⌊3/2⌋ = 1 — obtained by applying coverage_floor. -/
theorem coverage_floor_witness :
    n_survey 3 (1 / 2) = ⌊(3 : ℚ) * (1 / 2)⌋
    ∧ ((3 : ℚ) * (1 / 2) < 1 → n_survey 3 (1 / 2) = 0)
    ∧ (∀ m : ℕ, quarterly_clusters m = ⌊(m : ℚ) * (20 / 100)⌋)
    ∧ ((¬ ∃ k : ℤ, (3 : ℚ) * (1 / 2) = (k : ℚ)) →
        ((n_survey 3 (1 / 2) : ℚ) < (3 : ℚ) * (1 / 2))) :=
  coverage_floor 3 (1 / 2) (by norm_num) (by norm_num)

/-! ### Spatial clusterer: cluster_wells_dbscan
(bridger_spatial_survey.py lines 50-82).

The function extracts the [Latitude, Longitude] coordinate array, converts
the kilometre radius to degrees by plain division (`eps_km / 111.0` — no
clamping of any kind), and calls sklearn's `DBSCAN(eps=..., min_samples=...)
.fit(coords)`. sklearn validates its parameters at the start of fit —
`eps` must be a positive float and `min_samples` an integer ≥ 1, otherwise
an sklearn InvalidParameterError is raised before any clustering work —
which DBSCAN_fit models with an Except error. The label computation itself
is a standard DBSCAN over Euclidean distance in degree space (membership at
distance ≤ eps, a point counting itself among its neighbours), with fuel
bounding the flood-fill. -/

def dist2 (p q : ℚ × ℚ) : ℚ := (p.1 - q.1) ^ 2 + (p.2 - q.2) ^ 2

def neighborIdx (eps : ℚ) (pts : List (ℚ × ℚ)) (i : ℕ) : List ℕ :=
  (List.range pts.length).filter
    (fun j => decide (dist2 (pts.getD i (0, 0)) (pts.getD j (0, 0)) ≤ eps ^ 2))

def isCore (eps : ℚ) (minPts : ℕ) (pts : List (ℚ × ℚ)) (i : ℕ) : Bool :=
  decide (minPts ≤ (neighborIdx eps pts i).length)

def expandCluster (eps : ℚ) (minPts : ℕ) (pts : List (ℚ × ℚ)) (cid : ℤ) :
    ℕ → List ℤ → List ℕ → List ℤ
  | 0, labels, _ => labels
  | _ + 1, labels, [] => labels
  | fuel + 1, labels, j :: queue =>
      if labels.getD j (-2) = -2 ∨ labels.getD j (-2) = -1 then
        if isCore eps minPts pts j then
          expandCluster eps minPts pts cid fuel (labels.set j cid)
            (queue ++ (neighborIdx eps pts j).filter
              (fun k => decide ((labels.set j cid).getD k (-2) = -2)
                || decide ((labels.set j cid).getD k (-2) = -1)))
        else expandCluster eps minPts pts cid fuel (labels.set j cid) queue
      else expandCluster eps minPts pts cid fuel labels queue

def dbscanLoop (eps : ℚ) (minPts : ℕ) (pts : List (ℚ × ℚ)) :
    List ℕ → List ℤ → ℤ → List ℤ
  | [], labels, _ => labels
  | i :: rest, labels, nextId =>
      if labels.getD i (-2) ≠ -2 then dbscanLoop eps minPts pts rest labels nextId
      else if isCore eps minPts pts i then
        dbscanLoop eps minPts pts rest
          (expandCluster eps minPts pts nextId
            ((pts.length + 1) * (pts.length + 1)) labels [i])
          (nextId + 1)
      else dbscanLoop eps minPts pts rest (labels.set i (-1)) nextId

def dbscanLabels (eps : ℚ) (minPts : ℕ) (pts : List (ℚ × ℚ)) : List ℤ :=
  dbscanLoop eps minPts pts (List.range pts.length)
    (List.replicate pts.length (-2)) 0

/-- Modelled from the sklearn contract used by the source: `DBSCAN(...).fit`
validates `eps > 0` and `min_samples ≥ 1` on entry, raising an
InvalidParameterError before any clustering computation; on valid parameters
it returns the DBSCAN labels (-1 marking noise). -/
def DBSCAN_fit (eps : ℚ) (min_samples : ℤ) (coords : List (ℚ × ℚ)) :
    Except String (List ℤ) :=
  if eps ≤ 0 then
    Except.error "InvalidParameterError: eps must be a float in the range (0, inf)"
  else if min_samples < 1 then
    Except.error "InvalidParameterError: min_samples must be an int in the range [1, inf)"
  else Except.ok (dbscanLabels eps min_samples.toNat coords)

/-- Line 66 of bridger_spatial_survey.py: `eps_degrees = eps_km / 111.0`. -/
def km_to_degrees (eps_km : ℚ) : ℚ := eps_km / 111

def clusterIds (labels : List ℤ) : List ℤ :=
  labels.eraseDups.filter (fun c => decide (c ≠ -1))

def clusterCentroid (coords : List (ℚ × ℚ)) (labels : List ℤ) (cid : ℤ) : ℚ × ℚ :=
  (((((coords.zip labels).filter (fun p => decide (p.2 = cid))).map
      (fun p => p.1.1)).sum) /
    ((((coords.zip labels).filter (fun p => decide (p.2 = cid))).length : ℚ)),
   ((((coords.zip labels).filter (fun p => decide (p.2 = cid))).map
      (fun p => p.1.2)).sum) /
    ((((coords.zip labels).filter (fun p => decide (p.2 = cid))).length : ℚ)))

def cluster_wells_dbscan (coords : List (ℚ × ℚ)) (eps_km : ℚ) (min_samples : ℤ) :
    Except String (List ℤ × List (ℤ × ℚ × ℚ)) :=
  match DBSCAN_fit (km_to_degrees eps_km) min_samples coords with
  | Except.error e => Except.error e
  | Except.ok labels =>
      Except.ok (labels, (clusterIds labels).map
        (fun cid => (cid, clusterCentroid coords labels cid)))

/-- C6: for every invalid clustering configuration — eps_km ≤ 0 or
min_samples ≤ 0 — cluster_wells_dbscan is rejected by the fit-entry
parameter validation before any clustering computation starts, surfacing as
an error rather than a mid-run failure; and the km-to-degree conversion is a
sign-preserving division that never silently clamps a non-positive radius. -/
theorem cluster_wells_dbscan_rejects_invalid (coords : List (ℚ × ℚ))
    (eps_km : ℚ) (min_samples : ℤ) (h : eps_km ≤ 0 ∨ min_samples ≤ 0) :
    (∃ msg, cluster_wells_dbscan coords eps_km min_samples = Except.error msg)
    ∧ (eps_km ≤ 0 → km_to_degrees eps_km ≤ 0)
    ∧ (0 < eps_km → 0 < km_to_degrees eps_km) := by
  refine ⟨?_, fun hneg => div_nonpos_of_nonpos_of_nonneg hneg (by norm_num),
    fun hpos => div_pos hpos (by norm_num)⟩
  rcases h with heps | hms
  · have hdeg : km_to_degrees eps_km ≤ 0 :=
      div_nonpos_of_nonpos_of_nonneg heps (by norm_num)
    refine ⟨"InvalidParameterError: eps must be a float in the range (0, inf)", ?_⟩
    simp [cluster_wells_dbscan, DBSCAN_fit, hdeg]
  · by_cases hdeg : km_to_degrees eps_km ≤ 0
    · refine ⟨"InvalidParameterError: eps must be a float in the range (0, inf)", ?_⟩
      simp [cluster_wells_dbscan, DBSCAN_fit, hdeg]
    · refine ⟨"InvalidParameterError: min_samples must be an int in the range [1, inf)", ?_⟩
      have hlt : min_samples < 1 := by omega
      simp [cluster_wells_dbscan, DBSCAN_fit, hdeg, hlt]

/-- C6 witness: the concrete invalid configuration eps_km = -1 (with
min_samples = 2) over a one-point portfolio is rejected, obtained by applying
cluster_wells_dbscan_rejects_invalid. -/
theorem cluster_wells_dbscan_rejects_invalid_witness :
    (∃ msg, cluster_wells_dbscan [((0 : ℚ), (0 : ℚ))] (-1) 2 = Except.error msg)
    ∧ ((-1 : ℚ) ≤ 0 → km_to_degrees (-1) ≤ 0)
    ∧ ((0 : ℚ) < -1 → 0 < km_to_degrees (-1)) :=
  cluster_wells_dbscan_rejects_invalid [((0 : ℚ), (0 : ℚ))] (-1) 2 (Or.inl (by norm_num))
